import Mathlib

/-!
Shallow embedding of the drip-sdk health-check harness (the `python/` package of
the repository): configuration loading (`config.py`), the SDK client wrapper
(`drip_client.py`), the data model (`types.py`), the sequential check runner
(`runner.py`), the reporter (`reporter.py`), the CLI entry point (`cli.py`),
the check battery (`checks/__init__.py`) and the checks whose own logic is
under test here (`checks/utilities.py`, `checks/webhooks.py`).

Python strings are Lean `String`s; `os.environ` is a partial map
`String → Option String`; exceptions are `Except String`; check coroutines
(network calls into the external SDK) are oracles supplied as explicit
function arguments; `uuid.uuid4().hex` draws and wall-clock measurements are
likewise explicit oracle inputs.  Durations (Python floats holding
millisecond measurements) are modelled as `Rat`.
-/

namespace DripHealth

/-! ## Python string primitives used by the sources -/

/-- Decidable check that `pat` is a prefix of `l` (character lists). -/
def subAt : List Char → List Char → Bool
  | [], _ => true
  | _ :: _, [] => false
  | a :: as, b :: bs => a == b && subAt as bs

/-- Python `pat in hay` on strings: `pat` occurs as a contiguous substring. -/
def findSub : List Char → List Char → Bool
  | n, [] => n.isEmpty
  | n, b :: bs => subAt n (b :: bs) || findSub n bs

/-- Python membership test `needle in hay` for strings. -/
def containsSub (hay needle : String) : Bool :=
  findSub needle.data hay.data

/-- Python `s.endswith(t)`. -/
def strEndsWith (s t : String) : Bool :=
  decide (t.data <:+ s.data)

/-- Drop every trailing occurrence of `c` from a character list. -/
def dropTrailing (c : Char) (l : List Char) : List Char :=
  ((l.reverse).dropWhile (fun a => a == c)).reverse

/-- Python `s.rstrip("/")` specialised to a single strip character. -/
def rstripChar (s : String) (c : Char) : String :=
  String.mk (dropTrailing c s.data)

/-- Python `s[:-n]`: all but the last `n` characters. -/
def pyDropRight (s : String) (n : Nat) : String :=
  String.mk (s.data.take (s.data.length - n))

/-- The whitespace characters stripped by Python `str.strip()` (ASCII range). -/
def pyWhitespace (c : Char) : Bool :=
  c == ' ' || c == '\t' || c == '\n' || c == '\x0d' || c == '\x0b' || c == '\x0c'

/-- Python `s.strip()` on character lists. -/
def pyStripList (l : List Char) : List Char :=
  ((l.dropWhile pyWhitespace).reverse.dropWhile pyWhitespace).reverse

/-- Python `s.strip()`. -/
def pyStrip (s : String) : String :=
  String.mk (pyStripList s.data)

/-- ASCII decimal digit test. -/
def isPyDigit (c : Char) : Bool :=
  '0' ≤ c && c ≤ '9'

/-- Numeric value of an ASCII digit. -/
def digitVal (c : Char) : Nat :=
  c.toNat - '0'.toNat

/-- Digit-run parser for Python `int()`: after an initial digit, further
digits may be separated by single underscores (`1_000`); a leading,
trailing or doubled underscore is rejected. -/
def pyIntGo (acc : Nat) : List Char → Option Nat
  | [] => some acc
  | c :: cs =>
    if isPyDigit c then pyIntGo (acc * 10 + digitVal c) cs
    else if c == '_' then
      match cs with
      | [] => none
      | d :: ds => if isPyDigit d then pyIntGo (acc * 10 + digitVal d) ds else none
    else none

/-- Parse a nonempty digit run (with underscore separators) or fail. -/
def pyIntDigits : List Char → Option Nat
  | [] => none
  | c :: cs => if isPyDigit c then pyIntGo (digitVal c) cs else none

/-- Python `int(s)` for base 10 on ASCII input: strips surrounding
whitespace, accepts one optional sign, then a digit run with underscore
separators; any other input raises `ValueError`, modelled as `none`. -/
def pyInt (s : String) : Option Int :=
  match pyStripList s.data with
  | '+' :: rest => (pyIntDigits rest).map (fun n => (n : Int))
  | '-' :: rest => (pyIntDigits rest).map (fun n => -(n : Int))
  | l => (pyIntDigits l).map (fun n => (n : Int))

/-- ASCII lower-casing of one character. -/
def pyLowerChar (c : Char) : Char :=
  if 'A' ≤ c && c ≤ 'Z' then Char.ofNat (c.toNat + 32) else c

/-- Python `s.lower()` (ASCII case folding, as used on env values here). -/
def pyLower (s : String) : String :=
  String.mk (s.data.map pyLowerChar)

/-! ## config.py -/

/-- The process environment: `os.getenv` as a partial map. -/
def Env : Type := String → Option String

/-- Truthiness of `os.getenv(name)`: `None` and the empty string are falsy. -/
def pyTruthy : Option String → Bool
  | none => false
  | some s => !s.isEmpty

/-- `Config` dataclass from `config.py`. -/
structure Config where
  api_key : String
  api_url : String
  test_customer_id : Option String := none
  skip_cleanup : Bool := false
  timeout : Int := 30000
deriving DecidableEq, Repr

/-- `load_config` from `config.py`: requires `DRIP_API_KEY`, normalises
`DRIP_API_URL` to end in `/v1`, reads `TEST_CUSTOMER_ID`, `SKIP_CLEANUP`
and `CHECK_TIMEOUT`.  A raised `ValueError` (missing key, or `int()`
failing on `CHECK_TIMEOUT`) is the `.error` branch. -/
def load_config (env : Env) : Except String Config :=
  let api_key? := env "DRIP_API_KEY"
  if !(pyTruthy api_key?) then
    .error "DRIP_API_KEY environment variable is required. Set it in your .env file or environment."
  else
    let raw_url := (env "DRIP_API_URL").getD "https://api.drip.re"
    let api_url :=
      if strEndsWith raw_url "/v1" then raw_url
      else rstripChar raw_url '/' ++ "/v1"
    let test_customer_id := env "TEST_CUSTOMER_ID"
    let skip_cleanup :=
      ["true", "1", "yes"].contains (pyLower (((env "SKIP_CLEANUP").getD "")))
    match pyInt ((env "CHECK_TIMEOUT").getD "30000") with
    | none => .error "invalid literal for int() with base 10"
    | some timeout =>
      .ok { api_key := api_key?.getD ""
            api_url := api_url
            test_customer_id := test_customer_id
            skip_cleanup := skip_cleanup
            timeout := timeout }

/-! ## drip_client.py -/

/-- The base URL handed to the SDK constructor by `create_client`: trailing
slashes are stripped, then one trailing `/v1` is removed. -/
def create_client_url (base_url : String) : String :=
  let clean_url := rstripChar base_url '/'
  if strEndsWith clean_url "/v1" then pyDropRight clean_url 3 else clean_url

/-- `generate_idempotency_key` from `drip_client.py`.  The Python function
takes only a prefix (named `pre` here) and appends `uuid.uuid4().hex`, a
fresh random draw on every call, modelled as the explicit argument
`uuid4hex`. -/
def generate_idempotency_key (pre : String) (uuid4hex : String) : String :=
  pre ++ "_" ++ uuid4hex

/-! ## types.py -/

/-- `CheckResult` dataclass from `types.py` (duration is a Python float of
milliseconds, modelled as `Rat`). -/
structure CheckResult where
  name : String
  success : Bool
  duration : Rat
  message : String
  details : Option String := none
  suggestion : Option String := none
deriving DecidableEq, Repr

/-- `CheckContext` dataclass from `types.py`.  `stream_meter` holds an
opaque SDK object in Python; only its presence matters here, so it is
modelled as an optional identifier. -/
structure CheckContext where
  api_key : String
  api_url : String
  test_customer_id : Option String := none
  created_customer_id : Option String := none
  skip_cleanup : Bool := false
  timeout : Int := 30000
  created_charge_id : Option String := none
  stream_meter : Option String := none
  webhook_id : Option String := none
  webhook_secret : Option String := none
  run_id : Option String := none
deriving DecidableEq, Repr

/-- `Check` dataclass from `types.py`, without the coroutine field: the
coroutine bodies call the external SDK over the network, so a check run is
an oracle (`Behavior` below) keyed by the check. -/
structure Check where
  name : String
  description : String
  quick : Bool := false
deriving DecidableEq, Repr

/-! ## runner.py -/

/-- What awaiting a check coroutine under `asyncio.wait_for` can do:
complete with a result, raise, or exceed the timeout. -/
inductive CheckOutcome where
  | completed (result : CheckResult)
  | raised (msg : String)
  | timedOut
deriving DecidableEq, Repr

/-- One awaited execution of a check body: the context as mutated by the
body, the outcome, and the wall-clock milliseconds measured around the
await (`time.perf_counter` differences are environment inputs). -/
structure CheckStep where
  ctx : CheckContext
  outcome : CheckOutcome
  elapsedMs : Rat

/-- Oracle for check execution: what each check does on a given context. -/
def Behavior : Type := Check → CheckContext → CheckStep

/-- `run_check_with_timeout` from `runner.py`: returns the check result, or
the timeout `CheckResult` on `asyncio.TimeoutError`; any other exception
propagates (the `.error` branch). -/
def run_check_with_timeout (beh : Behavior) (check : Check)
    (ctx : CheckContext) (timeout_ms : Int) :
    CheckContext × Except String CheckResult :=
  let s := beh check ctx
  match s.outcome with
  | .completed r => (s.ctx, .ok r)
  | .timedOut =>
    (s.ctx, .ok { name := check.name
                  success := false
                  duration := (timeout_ms : Rat)
                  message := "Check timed out after " ++ toString timeout_ms ++ "ms"
                  suggestion := some "Increase timeout or check network connectivity" })
  | .raised m => (s.ctx, .error m)

/-- One iteration of the loop in `run_checks`: run the check with the
context timeout, replace a zero duration with the measured wall time, and
turn a propagated exception into a failure `CheckResult`. -/
def run_checks_step (beh : Behavior) (check : Check) (ctx : CheckContext) :
    CheckContext × CheckResult :=
  let elapsed := (beh check ctx).elapsedMs
  match run_check_with_timeout beh check ctx ctx.timeout with
  | (ctx', .ok r) =>
    (ctx', if r.duration = 0 then { r with duration := elapsed } else r)
  | (ctx', .error e) =>
    (ctx', { name := check.name
             success := false
             duration := elapsed
             message := "Check failed with exception: " ++ e
             suggestion := some "Check logs for details" })

/-- `run_checks` from `runner.py`: the sequential loop, threading the shared
mutable context from check to check and collecting one result per check. -/
def run_checks (beh : Behavior) : List Check → CheckContext → List CheckResult × CheckContext
  | [], ctx => ([], ctx)
  | c :: cs, ctx =>
    let step := run_checks_step beh c ctx
    let rest := run_checks beh cs step.1
    (step.2 :: rest.1, rest.2)

/-- The context state after running an initial segment of checks (the value
of the shared mutable `CheckContext` when a later check starts). -/
def ctxAfter (beh : Behavior) (ctx : CheckContext) (cs : List Check) : CheckContext :=
  cs.foldl (fun a c => (run_checks_step beh c a).1) ctx

/-! ## reporter.py -/

/-- Round-half-to-even on rationals, the rounding Python `round` uses. -/
def roundHalfEven (q : Rat) : Int :=
  let f := ⌊q⌋
  let r := q - (f : Rat)
  if r < 1/2 then f
  else if 1/2 < r then f + 1
  else if f % 2 = 0 then f else f + 1

/-- Python `round(x, 2)` as used on durations in the reporter. -/
def pyRound2 (q : Rat) : Rat :=
  ((roundHalfEven (q * 100) : Int) : Rat) / 100

/-- The dictionary appended to `Reporter.results` for one completed check in
JSON mode. -/
structure ReporterEntry where
  name : String
  success : Bool
  duration : Rat
  message : String
  details : Option String
  suggestion : Option String
deriving DecidableEq, Repr

/-- Build the JSON-mode dictionary for one result (`on_check_complete`). -/
def reporter_entry (r : CheckResult) : ReporterEntry :=
  { name := r.name
    success := r.success
    duration := pyRound2 r.duration
    message := r.message
    details := r.details
    suggestion := r.suggestion }

/-- `Reporter.on_check_complete` in JSON mode: append the entry to the
accumulated `self.results`. -/
def on_check_complete_json (state : List ReporterEntry) (r : CheckResult) :
    List ReporterEntry :=
  state ++ [reporter_entry r]

/-- The summary block computed by `Reporter.finish`, shared by the JSON
object and the text output line. -/
structure ReportSummary where
  total : Nat
  passed : Nat
  failed : Nat
deriving DecidableEq, Repr

/-- The counting in `Reporter.finish`: `passed` passes, `failed` the rest. -/
def reporter_finish_summary (results : List CheckResult) : ReportSummary :=
  let passed := (results.filter (fun r => r.success)).length
  { total := results.length
    passed := passed
    failed := results.length - passed }

/-- The JSON object printed by `Reporter.finish` in JSON mode. -/
structure ReportJson where
  results : List ReporterEntry
  summary : ReportSummary
deriving DecidableEq, Repr

/-- `Reporter.finish` in JSON mode: the accumulated entries plus summary. -/
def reporter_finish_json (state : List ReporterEntry) (results : List CheckResult) :
    ReportJson :=
  { results := state, summary := reporter_finish_summary results }

/-- The text-mode results line of `Reporter.finish` (colors disabled). -/
def reporter_finish_text (results : List CheckResult) : String :=
  let s := reporter_finish_summary results
  if s.failed > 0 then
    "📊 Results: " ++ toString s.passed ++ "/" ++ toString s.total ++
      " passed (" ++ toString s.failed ++ " failed)"
  else
    "📊 Results: " ++ toString s.passed ++ "/" ++ toString s.total ++ " passed ✓"

/-! ## checks/__init__.py : the fixed battery -/

/-- The 42 checks of `all_checks`, in source order, with their `name`,
`description` and `quick` fields as written in the `checks/` modules. -/
def all_checks : List Check := [
  { name := "connectivity", description := "Verify API connectivity", quick := true },
  { name := "authentication", description := "Verify API key authentication", quick := true },
  { name := "customer_create", description := "Create a test customer" },
  { name := "customer_get", description := "Retrieve created customer" },
  { name := "customer_list", description := "List customers with pagination" },
  { name := "charge_create", description := "Create a usage charge" },
  { name := "charge_status", description := "Check charge settlement status" },
  { name := "charge_get", description := "Get a specific charge by ID" },
  { name := "charge_list_filtered", description := "List charges with customer filtering" },
  { name := "track_usage", description := "Track usage without charging" },
  { name := "balance_get", description := "Get customer balance" },
  { name := "stream_meter_add", description := "Test stream meter accumulation" },
  { name := "stream_meter_flush", description := "Test stream meter flush" },
  { name := "idempotency", description := "Verify idempotent charge handling" },
  { name := "wrap_api_call_basic", description := "Test wrap_api_call basic usage" },
  { name := "wrap_api_call_idempotency", description := "Test wrap_api_call idempotency" },
  { name := "wrap_api_call_error", description := "Test wrap_api_call error handling" },
  { name := "checkout_create", description := "Create checkout session" },
  { name := "webhook_sign", description := "Create webhook and get secret", quick := true },
  { name := "webhook_verify", description := "Verify webhook signature", quick := true },
  { name := "webhook_create", description := "Create webhook endpoint" },
  { name := "webhook_list", description := "List all webhooks" },
  { name := "webhook_get", description := "Get webhook by ID" },
  { name := "webhook_test", description := "Send test webhook event" },
  { name := "webhook_rotate_secret", description := "Rotate webhook signing secret" },
  { name := "webhook_delete", description := "Delete webhook" },
  { name := "workflow_create", description := "Create workflow definition" },
  { name := "workflow_list", description := "List all workflows" },
  { name := "run_create", description := "Create and complete a workflow run" },
  { name := "run_timeline", description := "Get run timeline" },
  { name := "run_end", description := "End a workflow run" },
  { name := "emit_event", description := "Emit a single event" },
  { name := "emit_events_batch", description := "Emit multiple events in batch" },
  { name := "record_run", description := "Record a complete run in one call" },
  { name := "meters_list", description := "List available meters" },
  { name := "estimate_from_usage", description := "Estimate costs from historical usage" },
  { name := "estimate_hypothetical", description := "Estimate hypothetical costs" },
  { name := "sdk_metrics", description := "Get SDK metrics" },
  { name := "resilience_health", description := "Get resilience health status" },
  { name := "idempotency_key_gen", description := "Test idempotency key generation", quick := true },
  { name := "stream_meter_create", description := "Create stream meter instance" },
  { name := "customer_cleanup", description := "Clean up test resources" }
]

/-- `customer_cleanup_check` from `checks/customer.py`, the element placed
last in `all_checks`. -/
def customer_cleanup_check : Check :=
  { name := "customer_cleanup", description := "Clean up test resources" }

/-- `quick_checks` from `checks/__init__.py`. -/
def quick_checks : List Check :=
  all_checks.filter (fun c => c.quick)

/-- `get_checks_by_name` from `checks/__init__.py`: case-insensitive
substring match against the battery, deduplicating while keeping order. -/
def get_checks_by_name (names : List String) : List Check :=
  names.foldl
    (fun acc n =>
      let name_lower := pyStrip (pyLower n)
      all_checks.foldl
        (fun acc2 c =>
          if containsSub (pyLower c.name) name_lower && !(acc2.contains c) then
            acc2 ++ [c]
          else acc2)
        acc)
    []

/-! ## cli.py -/

/-- The click options of `main` in `cli.py`. -/
structure CliArgs where
  only : Option String := none
  quick : Bool := false
  verbose : Bool := false
  json_output : Bool := false
  environment : Option String := none
  no_cleanup : Bool := false

/-- The check-selection logic of `main`: `--quick` wins, then a truthy
`--only` (exiting with no checks selected when nothing matches, the `none`
branch), otherwise the full battery. -/
def cli_select_checks (args : CliArgs) : Option (List Check) :=
  if args.quick then some quick_checks
  else
    match args.only with
    | some s =>
      if s.isEmpty then some all_checks
      else
        let cs := get_checks_by_name (s.splitOn ",")
        if cs.isEmpty then none else some cs
    | none => some all_checks

/-- The `CheckContext` built by `main` from the config and flags. -/
def mk_context (config : Config) (args : CliArgs) : CheckContext :=
  { api_key := config.api_key
    api_url := config.api_url
    test_customer_id := config.test_customer_id
    skip_cleanup := args.no_cleanup || config.skip_cleanup
    timeout := config.timeout }

/-- `main` from `cli.py`, returning the process exit code: 2 on a
configuration `ValueError` or an empty `--only` selection, otherwise 1
when any check result failed and 0 when none did. -/
def cli_main (env : Env) (args : CliArgs) (beh : Behavior) : Nat :=
  match load_config env with
  | .error _ => 2
  | .ok config =>
    match cli_select_checks args with
    | none => 2
    | some checks =>
      let results := (run_checks beh checks (mk_context config args)).1
      let failures := (results.filter (fun r => !r.success)).length
      if failures > 0 then 1 else 0

/-! ## checks/utilities.py : stream meter creation -/

/-- The `except` branch of `_create_stream_meter_check`: exceptions whose
string holds `404` or `501` are mapped to a passing skip result, every
other exception to a failure. -/
def create_stream_meter_on_error (e : String) : CheckResult :=
  if containsSub e "404" || containsSub e "501" then
    { name := "stream_meter_create"
      success := true
      duration := 0
      message := "Skipped (endpoint not implemented)"
      details := some e }
  else
    { name := "stream_meter_create"
      success := false
      duration := 0
      message := "Failed to create stream meter: " ++ e }

/-- `_create_stream_meter_check`: the `try` body (SDK client creation and
stream meter construction, all external calls) is an oracle returning
either an updated context and result or a raised exception string. -/
def create_stream_meter_check_run
    (body : CheckContext → Except String (CheckContext × CheckResult))
    (ctx : CheckContext) : CheckContext × CheckResult :=
  match body ctx with
  | .ok p => p
  | .error e => (ctx, create_stream_meter_on_error e)

/-! ## SHA-256 and HMAC (the primitives behind `checks/webhooks.py`) -/

/-- Reduce to a 32-bit word. -/
def mask32 (x : Nat) : Nat := x % 4294967296

/-- 32-bit rotate right. -/
def rotr (n x : Nat) : Nat := mask32 ((x >>> n) ||| (x <<< (32 - n)))

/-- SHA-256 round constants (decimal). -/
def shaK : List Nat := [
  1116352408, 1899447441, 3049323471, 3921009573, 961987163, 1508970993,
  2453635748, 2870763221, 3624381080, 310598401, 607225278, 1426881987,
  1925078388, 2162078206, 2614888103, 3248222580, 3835390401, 4022224774,
  264347078, 604807628, 770255983, 1249150122, 1555081692, 1996064986,
  2554220882, 2821834349, 2952996808, 3210313671, 3336571891, 3584528711,
  113926993, 338241895, 666307205, 773529912, 1294757372, 1396182291,
  1695183700, 1986661051, 2177026350, 2456956037, 2730485921, 2820302411,
  3259730800, 3345764771, 3516065817, 3600352804, 4094571909, 275423344,
  430227734, 506948616, 659060556, 883997877, 958139571, 1322822218,
  1537002063, 1747873779, 1955562222, 2024104815, 2227730452, 2361852424,
  2428436474, 2756734187, 3204031479, 3329325298]

/-- SHA-256 initial hash words (decimal). -/
def shaH0 : List Nat :=
  [1779033703, 3144134277, 1013904242, 2773480762,
   1359893119, 2600822924, 528734635, 1541459225]

/-- Big-endian bytes to 32-bit words. -/
def bytesToWords : List Nat → List Nat
  | a :: b :: c :: d :: rest =>
    (a * 16777216 + b * 65536 + c * 256 + d) :: bytesToWords rest
  | _ => []

/-- A 32-bit word to big-endian bytes. -/
def wordToBytes (w : Nat) : List Nat :=
  [w / 16777216 % 256, w / 65536 % 256, w / 256 % 256, w % 256]

/-- Append the next message-schedule word. -/
def scheduleStep (l : List Nat) : List Nat :=
  let n := l.length
  let w15 := l.getD (n - 15) 0
  let w2 := l.getD (n - 2) 0
  let s0 := (rotr 7 w15) ^^^ (rotr 18 w15) ^^^ (w15 >>> 3)
  let s1 := (rotr 17 w2) ^^^ (rotr 19 w2) ^^^ (w2 >>> 10)
  l ++ [mask32 (l.getD (n - 16) 0 + s0 + l.getD (n - 7) 0 + s1)]

/-- Extend 16 block words to the 64-entry message schedule. -/
def extendSchedule (ws : List Nat) : List Nat :=
  scheduleStep^[48] ws

/-- SHA-256 working state. -/
structure Sha2State where
  a : Nat
  b : Nat
  c : Nat
  d : Nat
  e : Nat
  f : Nat
  g : Nat
  h : Nat

/-- One SHA-256 compression round for a constant/schedule-word pair. -/
def compressRound (st : Sha2State) (kw : Nat × Nat) : Sha2State :=
  let S1 := (rotr 6 st.e) ^^^ (rotr 11 st.e) ^^^ (rotr 25 st.e)
  let ch := (st.e &&& st.f) ^^^ ((st.e ^^^ 4294967295) &&& st.g)
  let temp1 := mask32 (st.h + S1 + ch + kw.1 + kw.2)
  let S0 := (rotr 2 st.a) ^^^ (rotr 13 st.a) ^^^ (rotr 22 st.a)
  let maj := (st.a &&& st.b) ^^^ (st.a &&& st.c) ^^^ (st.b &&& st.c)
  let temp2 := mask32 (S0 + maj)
  { a := mask32 (temp1 + temp2)
    b := st.a
    c := st.b
    d := st.c
    e := mask32 (st.d + temp1)
    f := st.e
    g := st.f
    h := st.g }

/-- Compress one 64-byte block into the running hash words. -/
def compressBlock (H : List Nat) (block : List Nat) : List Nat :=
  let ws := extendSchedule (bytesToWords block)
  let st0 : Sha2State :=
    { a := H.getD 0 0, b := H.getD 1 0, c := H.getD 2 0, d := H.getD 3 0,
      e := H.getD 4 0, f := H.getD 5 0, g := H.getD 6 0, h := H.getD 7 0 }
  let st := (shaK.zip ws).foldl compressRound st0
  [mask32 (H.getD 0 0 + st.a), mask32 (H.getD 1 0 + st.b),
   mask32 (H.getD 2 0 + st.c), mask32 (H.getD 3 0 + st.d),
   mask32 (H.getD 4 0 + st.e), mask32 (H.getD 5 0 + st.f),
   mask32 (H.getD 6 0 + st.g), mask32 (H.getD 7 0 + st.h)]

/-- An 8-byte big-endian encoding of a length in bits. -/
def be8 (n : Nat) : List Nat :=
  [n / 72057594037927936 % 256, n / 281474976710656 % 256,
   n / 1099511627776 % 256, n / 4294967296 % 256,
   n / 16777216 % 256, n / 65536 % 256, n / 256 % 256, n % 256]

/-- SHA-256 padding: a `0x80` byte, zeros to 56 mod 64, and the bit length. -/
def shaPad (msg : List Nat) : List Nat :=
  let L := msg.length
  let z := (119 - L % 64) % 64
  msg ++ [128] ++ List.replicate z 0 ++ be8 (8 * L)

/-- Split into 64-byte blocks (`drop 63 rest` is `drop 64` of the whole). -/
def toBlocks : List Nat → List (List Nat)
  | [] => []
  | a :: rest => List.take 64 (a :: rest) :: toBlocks (List.drop 63 rest)
termination_by l => l.length
decreasing_by simp only [List.length_drop, List.length_cons]; omega

/-- SHA-256 of a byte list, as bytes. -/
def sha256Bytes (msg : List Nat) : List Nat :=
  List.flatten (((toBlocks (shaPad msg)).foldl compressBlock shaH0).map wordToBytes)

/-- Lowercase hex character for a nibble. -/
def hexChar (n : Nat) : Char :=
  ("0123456789abcdef".data).getD n '0'

/-- Two-character lowercase hex encoding of a byte. -/
def byteHex (b : Nat) : List Char :=
  [hexChar (b / 16), hexChar (b % 16)]

/-- `hexdigest()`: lowercase hex of a byte list. -/
def hexDigest (bytes : List Nat) : String :=
  String.mk (List.flatten (bytes.map byteHex))

/-- UTF-8 encoding of one character. -/
def charUtf8 (c : Char) : List Nat :=
  let n := c.toNat
  if n < 128 then [n]
  else if n < 2048 then [192 + n / 64, 128 + n % 64]
  else if n < 65536 then [224 + n / 4096, 128 + n / 64 % 64, 128 + n % 64]
  else [240 + n / 262144, 128 + n / 4096 % 64, 128 + n / 64 % 64, 128 + n % 64]

/-- Python `s.encode()`: UTF-8 bytes of a string. -/
def utf8Bytes (s : String) : List Nat :=
  List.flatten (s.data.map charUtf8)

/-- HMAC-SHA256 over byte lists (`hmac.new(key, msg, hashlib.sha256)`). -/
def hmacSha256 (key msg : List Nat) : List Nat :=
  let k0 := if key.length > 64 then sha256Bytes key else key
  let kp := k0 ++ List.replicate (64 - k0.length) 0
  let ipadKey := kp.map (fun b => b ^^^ 54)
  let opadKey := kp.map (fun b => b ^^^ 92)
  sha256Bytes (opadKey ++ sha256Bytes (ipadKey ++ msg))

/-- `hmac.compare_digest` on strings: a length check and a constant-time
accumulated-difference comparison. -/
def compare_digest (a b : String) : Bool :=
  a.data.length == b.data.length &&
    ((a.data.zip b.data).foldl (fun acc p => acc ||| (p.1.toNat ^^^ p.2.toNat)) 0 == 0)

/-! ## checks/webhooks.py -/

/-- The signed payload `"{timestamp}.{payload}"` built by
`_webhook_verify_check`. -/
def signature_payload (timestamp : Int) (payload : String) : String :=
  toString timestamp ++ "." ++ payload

/-- The hex HMAC-SHA256 signature the check computes over the signed
payload with the webhook secret. -/
def webhook_hex_signature (secret : String) (timestamp : Int) (payload : String) : String :=
  hexDigest (hmacSha256 (utf8Bytes secret) (utf8Bytes (signature_payload timestamp payload)))

/-- The wire format `t={timestamp},v1={hex}` built by the check. -/
def format_signature (timestamp : Int) (hex : String) : String :=
  "t=" ++ toString timestamp ++ ",v1=" ++ hex

/-- Modelled from the spec: `verify_webhook_signature` is a static function
of the external drip SDK, absent from `src/` (only its caller
`_webhook_verify_check` in `checks/webhooks.py` is present).  Per the spec
it is "a textbook HMAC-SHA256 compare-digest with a timestamp tolerance
window" over `"{timestamp}.{payload}"`; the signature argument is taken
here in its parsed `t=…,v1=…` form as the pair of a timestamp and a hex
digest. -/
def verify_webhook_signature (payload : String) (sig_t : Int) (sig_v1 : String)
    (secret : String) (tolerance_seconds : Nat) (now : Int) : Bool :=
  compare_digest sig_v1 (webhook_hex_signature secret sig_t payload) &&
    decide ((now - sig_t).natAbs ≤ tolerance_seconds)

/-! ## Sample inputs shared by witnesses -/

/-- A sample check used to instantiate runner theorems. -/
def sampleCheck : Check :=
  { name := "connectivity", description := "Verify API connectivity", quick := true }

/-- A sample context (default timeout 30000 ms). -/
def sampleCtx : CheckContext :=
  { api_key := "secret-key", api_url := "https://api.drip.re/v1" }

/-- The successful result `behOk` returns for a check. -/
def okResult (c : Check) : CheckResult :=
  { name := c.name, success := true, duration := 1, message := "ok" }

/-- A behavior whose checks all complete successfully. -/
def behOk : Behavior :=
  fun c ctx => { ctx := ctx, outcome := .completed (okResult c), elapsedMs := 1 }

/-- A behavior whose checks all hit the timeout, measured at 7 ms. -/
def behTimeoutW : Behavior :=
  fun _ ctx => { ctx := ctx, outcome := .timedOut, elapsedMs := 7 }

/-- A behavior whose checks all raise `boom`, measured at 5 ms. -/
def behRaiseW : Behavior :=
  fun _ ctx => { ctx := ctx, outcome := .raised "boom", elapsedMs := 5 }

/-! ## Helper lemmas -/

/-- The result list of `run_checks` has one entry per check. -/
lemma run_checks_length (beh : Behavior) (checks : List Check) (ctx : CheckContext) :
    ((run_checks beh checks ctx).1).length = checks.length := by
  induction checks generalizing ctx with
  | nil => rfl
  | cons c cs ih => simp [run_checks, ih]

/-- Folding `on_check_complete_json` appends entries in completion order. -/
lemma foldl_on_check_complete (l : List CheckResult) (init : List ReporterEntry) :
    l.foldl on_check_complete_json init = init ++ l.map reporter_entry := by
  induction l generalizing init with
  | nil => simp
  | cons r rs ih => simp [on_check_complete_json, ih]

/-! ## C4 : idempotency key generation (code bug) -/

/-- C4: the repository's own `generate_idempotency_key` is not stable across
calls — with the identical prefix argument, two calls whose `uuid.uuid4().hex`
draws differ return different keys (and the function does not even accept the
`(customer_id, meter, sequence)` tuple its own check in `checks/utilities.py`
passes it). -/
theorem generate_idempotency_key_fresh_draws_differ :
    generate_idempotency_key "test" "0f5a1c3e7b2d49c8a6e4f0b1d2c3e4f5" ≠
      generate_idempotency_key "test" "1a2b3c4d5e6f708192a3b4c5d6e7f809" := by
  decide

/-! ## C7 : the fixed battery and quick selection -/

/-- C7: `all_checks` is a fixed 42-element list ending in the customer
cleanup check; with no selection flags the CLI selects exactly that list,
and with `--quick` exactly its `quick`-flagged filter subsequence, which is
a sublist (same relative order) of the battery. -/
theorem all_checks_battery_spec :
    all_checks.length = 42 ∧
    all_checks.getLast? = some customer_cleanup_check ∧
    cli_select_checks ({ } : CliArgs) = some all_checks ∧
    cli_select_checks ({ quick := true } : CliArgs) = some (all_checks.filter (fun c => c.quick)) ∧
    List.Sublist quick_checks all_checks :=
  ⟨rfl, rfl, rfl, rfl, List.filter_sublist _⟩

/-! ## C8 : stream meter check status-string sniffing -/

/-- C8: when the `try` body of `_create_stream_meter_check` raises, the
check passes with the skip message exactly when the exception string holds
`404` or `501`, and fails for every other exception. -/
theorem create_stream_meter_status_sniffing
    (body : CheckContext → Except String (CheckContext × CheckResult))
    (ctx : CheckContext) (e : String) (hb : body ctx = .error e) :
    ((containsSub e "404" = true ∨ containsSub e "501" = true) →
      (create_stream_meter_check_run body ctx).2.success = true ∧
      (create_stream_meter_check_run body ctx).2.message =
        "Skipped (endpoint not implemented)") ∧
    (containsSub e "404" = false → containsSub e "501" = false →
      (create_stream_meter_check_run body ctx).2.success = false ∧
      (create_stream_meter_check_run body ctx).2.message =
        "Failed to create stream meter: " ++ e) := by
  unfold create_stream_meter_check_run
  rw [hb]
  unfold create_stream_meter_on_error
  constructor
  · rintro (h | h) <;> simp [h]
  · intro h1 h2
    simp [h1, h2]

/-- Witness for C8 at a concrete 404 exception. -/
theorem create_stream_meter_status_sniffing_witness :
    (create_stream_meter_check_run (fun _ => Except.error "HTTP 404 not found") sampleCtx).2.success = true ∧
    (create_stream_meter_check_run (fun _ => Except.error "HTTP 404 not found") sampleCtx).2.message =
      "Skipped (endpoint not implemented)" :=
  (create_stream_meter_status_sniffing (fun _ => Except.error "HTTP 404 not found")
    sampleCtx "HTTP 404 not found" rfl).1 (Or.inl (by decide))

/-! ## C10 : reporter summary arithmetic -/

/-- C10: for every result list, the finish summary reports `total` equal to
the number of results, `passed` equal to the number of successes, with
`passed + failed = total`; and in JSON mode the printed object lists each
result exactly once, in completion order. -/
theorem reporter_summary_consistent (results : List CheckResult) :
    (reporter_finish_json (results.foldl on_check_complete_json []) results).summary.total
        = results.length ∧
    (reporter_finish_json (results.foldl on_check_complete_json []) results).summary.passed
        = (results.filter (fun r => r.success)).length ∧
    (reporter_finish_json (results.foldl on_check_complete_json []) results).summary.passed +
      (reporter_finish_json (results.foldl on_check_complete_json []) results).summary.failed
        = (reporter_finish_json (results.foldl on_check_complete_json []) results).summary.total ∧
    (reporter_finish_json (results.foldl on_check_complete_json []) results).results
        = results.map reporter_entry := by
  refine ⟨rfl, rfl, ?_, ?_⟩
  · have hle : (results.filter (fun r => r.success)).length ≤ results.length :=
      List.length_filter_le _ _
    simp only [reporter_finish_json, reporter_finish_summary]
    omega
  · simpa using foldl_on_check_complete results []

/-! ## C2 : strictly sequential execution with context threading -/

/-- C2: `run_checks` returns exactly one result per check in input order,
and the result at position `i` is produced by running check `i` (through
the `wait_for` timeout wrapper of `run_checks_step`) on the shared context
as left by checks `0..i-1` — the strictly sequential threading that makes
fields written by earlier checks visible to later ones. -/
theorem run_checks_sequential (beh : Behavior) (checks : List Check) (ctx : CheckContext) :
    ((run_checks beh checks ctx).1).length = checks.length ∧
    ∀ i c, checks[i]? = some c →
      ((run_checks beh checks ctx).1)[i]? =
        some (run_checks_step beh c (ctxAfter beh ctx (checks.take i))).2 := by
  refine ⟨run_checks_length beh checks ctx, ?_⟩
  induction checks generalizing ctx with
  | nil => intro i c h; simp at h
  | cons hd tl ih =>
    intro i c h
    cases i with
    | zero =>
      simp only [List.getElem?_cons_zero, Option.some.injEq] at h
      subst h
      simp [run_checks, ctxAfter]
    | succ n =>
      simp only [List.getElem?_cons_succ] at h
      have htl := ih ((run_checks_step beh hd ctx).1) n c h
      simp only [run_checks, List.getElem?_cons_succ]
      rw [htl]
      simp [ctxAfter, List.take_succ_cons]

/-- Witness for C2 on a singleton battery with the all-success behavior. -/
theorem run_checks_sequential_witness :
    ((run_checks behOk [sampleCheck] sampleCtx).1).length = 1 ∧
    ((run_checks behOk [sampleCheck] sampleCtx).1)[0]? =
      some (run_checks_step behOk sampleCheck (ctxAfter behOk sampleCtx ([sampleCheck].take 0))).2 :=
  ⟨(run_checks_sequential behOk [sampleCheck] sampleCtx).1,
   (run_checks_sequential behOk [sampleCheck] sampleCtx).2 0 sampleCheck rfl⟩

/-! ## C3 : exception and timeout mapping (corrected: a zero timeout's
duration is overwritten by the measured wall time) -/

/-- A behavior that times out with a measured wall time of 7 ms. -/
def behTimeout7 : Behavior :=
  fun _ ctx => { ctx := ctx, outcome := .timedOut, elapsedMs := 7 }

/-- The context `run_checks_timeout_duration_cex` runs with: timeout 0. -/
def ctxT0 : CheckContext :=
  { api_key := "secret-key", api_url := "https://api.drip.re/v1", timeout := 0 }

/-- Counterexample to C3 as stated: with `CHECK_TIMEOUT` 0, a timed-out
check's result carries the measured wall time (here 7 ms), not the timeout,
because `run_checks` overwrites a zero duration with the elapsed time. -/
theorem run_checks_timeout_duration_cex :
    (run_checks behTimeout7 [{ name := "c", description := "d" }] ctxT0).1 =
      [{ name := "c", success := false, duration := 7,
         message := "Check timed out after 0ms",
         suggestion := some "Increase timeout or check network connectivity" }] ∧
    (7 : Rat) ≠ ((ctxT0.timeout : Int) : Rat) := by
  refine ⟨?_, by decide⟩
  rfl

/-- C3 (amended): `run_checks` never propagates a check's exception.  A
timed-out check yields a failure result with the timeout message and, for a
nonzero timeout, a duration equal to the timeout in milliseconds; a check
raising any other exception yields a failure result embedding the
exception; and in both cases the remaining checks still run (one result
per check of the rest of the battery). -/
theorem run_checks_error_mapping (beh : Behavior) (check : Check) (ctx : CheckContext)
    (cs : List Check) :
    ((beh check ctx).outcome = .timedOut → ctx.timeout ≠ 0 →
      (run_checks_step beh check ctx).2 =
        { name := check.name, success := false, duration := ((ctx.timeout : Int) : Rat),
          message := "Check timed out after " ++ toString ctx.timeout ++ "ms",
          suggestion := some "Increase timeout or check network connectivity" }) ∧
    (∀ m, (beh check ctx).outcome = .raised m →
      (run_checks_step beh check ctx).2 =
        { name := check.name, success := false, duration := (beh check ctx).elapsedMs,
          message := "Check failed with exception: " ++ m,
          suggestion := some "Check logs for details" }) ∧
    ((run_checks beh (check :: cs) ctx).1).length = cs.length + 1 := by
  refine ⟨?_, ?_, ?_⟩
  · intro hout hne
    have hcast : ¬ (((ctx.timeout : Int) : Rat) = 0) := by simpa using hne
    rcases hs : beh check ctx with ⟨sctx, sout, selapsed⟩
    rw [hs] at hout
    simp only at hout
    subst hout
    simp [run_checks_step, run_check_with_timeout, hs, hcast]
  · intro m hout
    rcases hs : beh check ctx with ⟨sctx, sout, selapsed⟩
    rw [hs] at hout
    simp only at hout
    subst hout
    simp [run_checks_step, run_check_with_timeout, hs]
  · simpa [run_checks] using run_checks_length beh cs (run_checks_step beh check ctx).1

/-- Witness for C3 at concrete timing-out and raising behaviors. -/
theorem run_checks_error_mapping_witness :
    (run_checks_step behTimeoutW sampleCheck sampleCtx).2 =
      { name := sampleCheck.name, success := false, duration := ((30000 : Int) : Rat),
        message := "Check timed out after 30000ms",
        suggestion := some "Increase timeout or check network connectivity" } ∧
    (run_checks_step behRaiseW sampleCheck sampleCtx).2 =
      { name := sampleCheck.name, success := false, duration := 5,
        message := "Check failed with exception: boom",
        suggestion := some "Check logs for details" } :=
  ⟨(run_checks_error_mapping behTimeoutW sampleCheck sampleCtx []).1 rfl (by decide),
   (run_checks_error_mapping behRaiseW sampleCheck sampleCtx []).2.1 "boom" rfl⟩

/-! ## C1 : CLI exit codes -/

/-- The exit computation of `main`: positive failure count means 1. -/
lemma failures_exit (l : List CheckResult) :
    (if (l.filter (fun r => !r.success)).length > 0 then 1 else 0) =
      (if l.all (fun r => r.success) then (0 : Nat) else 1) := by
  by_cases hall : l.all (fun r => r.success) = true
  · have hnil : l.filter (fun r => !r.success) = [] := by
      rw [List.filter_eq_nil_iff]
      intro a ha
      have := (List.all_eq_true.mp hall) a ha
      simp_all
    simp [hall, hnil]
  · have hex : ∃ a ∈ l, a.success = false := by
      by_contra hno
      push_neg at hno
      apply hall
      rw [List.all_eq_true]
      intro a ha
      have := hno a ha
      simp_all
    have hpos : 0 < (l.filter (fun r => !r.success)).length := by
      obtain ⟨a, ha, hs⟩ := hex
      have hm : a ∈ l.filter (fun r => !r.success) := List.mem_filter.mpr ⟨ha, by simp [hs]⟩
      exact List.length_pos.mpr (List.ne_nil_of_mem hm)
    simp [hall, hpos]

/-- C1: `main` exits 2 when `load_config` raises `ValueError`; otherwise,
once a check list is selected, it exits 0 when every result succeeded and 1
when at least one failed. -/
theorem cli_exit_codes (env : Env) (args : CliArgs) (beh : Behavior) :
    ((∃ e, load_config env = Except.error e) → cli_main env args beh = 2) ∧
    (∀ cfg checks, load_config env = Except.ok cfg →
      cli_select_checks args = some checks →
      cli_main env args beh =
        if ((run_checks beh checks (mk_context cfg args)).1).all (fun r => r.success)
        then 0 else 1) := by
  constructor
  · rintro ⟨e, he⟩
    simp [cli_main, he]
  · intro cfg checks hok hsel
    simp only [cli_main, hok, hsel]
    exact failures_exit _

/-- An environment with no variables set: `load_config` fails. -/
def envNoKey : Env := fun _ => none

/-- An environment with only a nonempty `DRIP_API_KEY`. -/
def envW : Env := fun n => if n = "DRIP_API_KEY" then some "secret-key" else none

/-- The config `load_config` produces from `envW`. -/
def cfgW : Config :=
  { api_key := "secret-key", api_url := "https://api.drip.re/v1" }

/-- Witness for C1: exit 2 on missing key; exit by all-success otherwise. -/
theorem cli_exit_codes_witness :
    cli_main envNoKey ({ } : CliArgs) behOk = 2 ∧
    cli_main envW ({ quick := true } : CliArgs) behOk =
      (if ((run_checks behOk quick_checks
            (mk_context cfgW ({ quick := true } : CliArgs))).1).all (fun r => r.success)
       then 0 else 1) :=
  ⟨(cli_exit_codes envNoKey { } behOk).1 ⟨_, rfl⟩,
   (cli_exit_codes envW { quick := true } behOk).2 cfgW quick_checks (by rfl) rfl⟩

/-! ## C6 : when load_config raises ValueError (corrected: a malformed
`CHECK_TIMEOUT` also raises, via `int()`) -/

/-- An environment with a nonempty key but a non-numeric `CHECK_TIMEOUT`. -/
def envC6 : Env := fun n =>
  if n = "DRIP_API_KEY" then some "secret-key"
  else if n = "CHECK_TIMEOUT" then some "abc" else none

/-- Counterexample to C6 as stated: `DRIP_API_KEY` is set and nonempty, yet
`load_config` raises `ValueError`, because `int("abc")` does. -/
theorem load_config_valueerror_cex :
    envC6 "DRIP_API_KEY" = some "secret-key" ∧
    load_config envC6 = Except.error "invalid literal for int() with base 10" :=
  ⟨rfl, by rfl⟩

/-- C6 (amended): `load_config` raises `ValueError` if and only if
`DRIP_API_KEY` is unset or empty or `CHECK_TIMEOUT` fails to parse as an
integer; whenever it returns a config, the `api_key` is the nonempty value
of `DRIP_API_KEY`, and conversely a nonempty key with a well-formed (or
absent) `CHECK_TIMEOUT` yields a config carrying exactly that key. -/
theorem load_config_valueerror_iff (env : Env) :
    ((∃ e, load_config env = Except.error e) ↔
      (pyTruthy (env "DRIP_API_KEY") = false ∨
        pyInt ((env "CHECK_TIMEOUT").getD "30000") = none)) ∧
    (∀ cfg, load_config env = Except.ok cfg →
      env "DRIP_API_KEY" = some cfg.api_key ∧ cfg.api_key ≠ "") ∧
    (∀ k, env "DRIP_API_KEY" = some k → k ≠ "" →
      ∀ t, pyInt ((env "CHECK_TIMEOUT").getD "30000") = some t →
        ∃ cfg, load_config env = Except.ok cfg ∧ cfg.api_key = k ∧ cfg.timeout = t) := by
  by_cases hk : pyTruthy (env "DRIP_API_KEY") = true
  · rcases hke : env "DRIP_API_KEY" with _ | k
    · rw [hke] at hk
      exact absurd hk (by simp [pyTruthy])
    · have hkne : k ≠ "" := by
        intro hcon
        rw [hke, hcon] at hk
        exact absurd hk (by decide)
      have hk2 : pyTruthy (some k) = true := by rw [← hke]; exact hk
      cases hp : pyInt ((env "CHECK_TIMEOUT").getD "30000") with
      | none =>
        have herr : load_config env = Except.error "invalid literal for int() with base 10" := by
          simp [load_config, hk, hp]
        refine ⟨?_, ?_, ?_⟩
        · exact ⟨fun _ => Or.inr rfl, fun _ => ⟨_, herr⟩⟩
        · intro cfg hok
          rw [herr] at hok
          cases hok
        · intro k2 _ _ t ht
          cases ht
      | some t0 =>
        have hok : load_config env = Except.ok
            { api_key := (env "DRIP_API_KEY").getD ""
              api_url :=
                (if strEndsWith ((env "DRIP_API_URL").getD "https://api.drip.re") "/v1"
                 then (env "DRIP_API_URL").getD "https://api.drip.re"
                 else rstripChar ((env "DRIP_API_URL").getD "https://api.drip.re") '/' ++ "/v1")
              test_customer_id := env "TEST_CUSTOMER_ID"
              skip_cleanup :=
                ["true", "1", "yes"].contains (pyLower (((env "SKIP_CLEANUP").getD "")))
              timeout := t0 } := by
          simp [load_config, hk, hp]
        refine ⟨?_, ?_, ?_⟩
        · constructor
          · rintro ⟨e, he⟩
            rw [hok] at he
            cases he
          · rintro (h | h)
            · rw [hk2] at h
              cases h
            · cases h
        · intro cfg hok2
          rw [hok] at hok2
          obtain rfl : _ = cfg := Except.ok.inj hok2
          refine ⟨by simp [hke], by simpa [hke] using hkne⟩
        · intro k2 hke2 _ t ht
          obtain rfl : t0 = t := Option.some.inj ht
          obtain rfl : k = k2 := Option.some.inj hke2
          exact ⟨_, hok, by simp [hke], rfl⟩
  · have hkf : pyTruthy (env "DRIP_API_KEY") = false := by
      simpa using hk
    have herr : load_config env = Except.error
        "DRIP_API_KEY environment variable is required. Set it in your .env file or environment." := by
      simp [load_config, hkf]
    refine ⟨?_, ?_, ?_⟩
    · exact ⟨fun _ => Or.inl hkf, fun _ => ⟨_, herr⟩⟩
    · intro cfg hok
      rw [herr] at hok
      cases hok
    · intro k hke hkne t _
      rw [hke] at hkf
      simp only [pyTruthy, Bool.not_eq_false'] at hkf
      exact absurd ((String.isEmpty_iff _).mp hkf) hkne

/-- Witness for C6 on a concrete environment with only a nonempty key. -/
theorem load_config_valueerror_iff_witness :
    ∃ cfg, load_config envW = Except.ok cfg ∧
      cfg.api_key = "secret-key" ∧ cfg.timeout = 30000 :=
  (load_config_valueerror_iff envW).2.2 "secret-key" rfl (by decide) 30000 rfl

/-! ## C9 : URL normalisation (corrected: the round trip is not exact for
every `DRIP_API_URL`) -/

/-- A string always ends with a suffix just appended to it. -/
lemma strEndsWith_append_self (s t : String) : strEndsWith (s ++ t) t = true := by
  unfold strEndsWith
  rw [String.data_append]
  exact decide_eq_true (List.suffix_append s.data t.data)

/-- Dropping trailing `c`s from a list not ending in `c` is the identity. -/
lemma dropTrailing_eq_self {c : Char} {l : List Char} (h : ¬ [c] <:+ l) :
    dropTrailing c l = l := by
  unfold dropTrailing
  cases hr : l.reverse with
  | nil =>
    have hl : l = [] := by simpa using congrArg List.reverse hr
    simp [hl]
  | cons a t =>
    have hla : l = (a :: t).reverse := by rw [← hr, List.reverse_reverse]
    by_cases hac : a = c
    · refine absurd ?_ h
      refine ⟨t.reverse, ?_⟩
      rw [hla, hac]
      simp
    · have hbeq : (a == c) = false := by simp [hac]
      have hd : List.dropWhile (fun x => x == c) (a :: t) = a :: t := by
        rw [List.dropWhile_cons, hbeq]
        simp
      rw [hd]
      exact hla.symm

/-- Python `rstrip("/")` is the identity on strings not ending in `/`. -/
lemma rstripChar_eq_self {s : String} (h : strEndsWith s "/" = false) :
    rstripChar s '/' = s := by
  have hns : ¬ (['/'] <:+ s.data) := by
    intro hsuf
    have : strEndsWith s "/" = true := by
      unfold strEndsWith
      exact decide_eq_true hsuf
    rw [this] at h
    cases h
  unfold rstripChar
  rw [dropTrailing_eq_self hns]

/-- A one-character suffix of `x ++ [d]` is exactly `[d]`. -/
lemma singleton_suffix_append (x : List Char) (c d : Char) :
    [c] <:+ x ++ [d] ↔ c = d := by
  constructor
  · rintro ⟨t, ht⟩
    have hlast := congrArg List.getLast? ht
    simp [List.getLast?_concat] at hlast
    exact hlast
  · rintro rfl
    exact ⟨x, rfl⟩

/-- A string with `/v1` just appended does not end in `/`. -/
lemma strEndsWith_append_v1_slash (U : String) :
    strEndsWith (U ++ "/v1") "/" = false := by
  unfold strEndsWith
  rw [String.data_append]
  apply decide_eq_false
  intro hsuf
  have hdata : U.data ++ ("/v1" : String).data = (U.data ++ ['/', 'v']) ++ ['1'] := by
    simp
  rw [hdata] at hsuf
  have : '/' = '1' := (singleton_suffix_append _ _ _).mp hsuf
  cases this

/-- Python `s[:-3]` undoes appending the three-character `/v1`. -/
lemma pyDropRight_append_v1 (U : String) : pyDropRight (U ++ "/v1") 3 = U := by
  unfold pyDropRight
  rw [String.data_append]
  have h3 : ("/v1" : String).data = ['/', 'v', '1'] := rfl
  rw [h3, List.length_append]
  simp only [List.length_cons, List.length_nil]
  rw [Nat.add_sub_cancel]
  have := List.take_left U.data ['/', 'v', '1']
  rw [this]

/-- `create_client_url` on a clean URL with `/v1` appended returns the URL. -/
lemma create_client_url_append_v1 (U : String) :
    create_client_url (U ++ "/v1") = U := by
  have h1 := rstripChar_eq_self (strEndsWith_append_v1_slash U)
  have h2 := strEndsWith_append_self U "/v1"
  simp only [create_client_url, h1, h2, if_true]
  exact pyDropRight_append_v1 U

/-- The environment of the C9 counterexample: the configured URL ends in
`/v1/`, so normalisation appends a second `/v1`. -/
def envC9 : Env := fun n =>
  if n = "DRIP_API_KEY" then some "secret-key"
  else if n = "DRIP_API_URL" then some "https://x.com/v1/" else none

/-- Counterexample to C9 as stated: with `DRIP_API_URL=https://x.com/v1/`,
`load_config` produces `https://x.com/v1/v1` and `create_client` hands the
SDK `https://x.com/v1` — a URL still carrying a `/v1` suffix. -/
theorem create_client_url_v1_suffix_cex :
    load_config envC9 = Except.ok
      { api_key := "secret-key", api_url := "https://x.com/v1/v1" } ∧
    create_client_url "https://x.com/v1/v1" = "https://x.com/v1" ∧
    strEndsWith (create_client_url "https://x.com/v1/v1") "/v1" = true :=
  ⟨by rfl, by rfl, by rfl⟩

/-- C9 (amended): `load_config` always returns an `api_url` ending in
`/v1` (the default included), and `create_client` strips trailing slashes
and then one trailing `/v1`; when `DRIP_API_URL` is unset, or has no
trailing slash and no `/v1` suffix already, the SDK receives exactly the
configured (resp. default) URL. -/
theorem url_normalization_round_trip (env : Env) (cfg : Config)
    (hok : load_config env = Except.ok cfg) :
    strEndsWith cfg.api_url "/v1" = true ∧
    (∀ U, env "DRIP_API_URL" = some U → strEndsWith U "/" = false →
      strEndsWith U "/v1" = false → create_client_url cfg.api_url = U) ∧
    (env "DRIP_API_URL" = none →
      cfg.api_url = "https://api.drip.re/v1" ∧
      create_client_url cfg.api_url = "https://api.drip.re") := by
  have hau : cfg.api_url =
      (if strEndsWith ((env "DRIP_API_URL").getD "https://api.drip.re") "/v1"
       then (env "DRIP_API_URL").getD "https://api.drip.re"
       else rstripChar ((env "DRIP_API_URL").getD "https://api.drip.re") '/' ++ "/v1") := by
    unfold load_config at hok
    by_cases hk : pyTruthy (env "DRIP_API_KEY") = true
    · cases hp : pyInt ((env "CHECK_TIMEOUT").getD "30000") with
      | none =>
        rw [hp] at hok
        simp [hk] at hok
      | some t0 =>
        rw [hp] at hok
        simp only [hk, Bool.not_true, Bool.false_eq_true, if_false] at hok
        obtain rfl : _ = cfg := Except.ok.inj hok
        rfl
    · simp [hk] at hok
  refine ⟨?_, ?_, ?_⟩
  · rw [hau]
    by_cases hv : strEndsWith ((env "DRIP_API_URL").getD "https://api.drip.re") "/v1" = true
    · rw [if_pos hv]
      exact hv
    · rw [if_neg hv]
      exact strEndsWith_append_self _ _
  · intro U hU hU1 hU2
    rw [hau, hU]
    simp only [Option.getD_some]
    rw [if_neg (by simp [hU2]), rstripChar_eq_self hU1]
    exact create_client_url_append_v1 U
  · intro hU
    rw [hau, hU]
    exact ⟨by rfl, by rfl⟩

/-- Witness for C9 on a clean configured URL. -/
theorem url_normalization_round_trip_witness :
    strEndsWith (Config.api_url
        { api_key := "secret-key", api_url := "https://example.com/v1" }) "/v1" = true ∧
    create_client_url "https://example.com/v1" = "https://example.com" := by
  have h := url_normalization_round_trip
    (fun n => if n = "DRIP_API_KEY" then some "secret-key"
      else if n = "DRIP_API_URL" then some "https://example.com" else none)
    { api_key := "secret-key", api_url := "https://example.com/v1" } (by rfl)
  exact ⟨h.1, h.2.1 "https://example.com" rfl (by rfl) (by rfl)⟩

/-! ## C5 : webhook signature verification -/

/-- A bitwise or of naturals is zero exactly when both are. -/
lemma nat_lor_eq_zero {m n : Nat} : m ||| n = 0 ↔ m = 0 ∧ n = 0 := by
  constructor
  · intro h
    have hb : ∀ i, m.testBit i = false ∧ n.testBit i = false := by
      intro i
      have hc := congrArg (fun x => Nat.testBit x i) h
      simp only [Nat.testBit_lor, Nat.zero_testBit, Bool.or_eq_false_iff] at hc
      exact hc
    refine ⟨Nat.eq_of_testBit_eq fun i => ?_, Nat.eq_of_testBit_eq fun i => ?_⟩
    · rw [(hb i).1, Nat.zero_testBit]
    · rw [(hb i).2, Nat.zero_testBit]
  · rintro ⟨rfl, rfl⟩
    rfl

/-- Characters with equal code points are equal. -/
lemma char_toNat_inj {c d : Char} (h : c.toNat = d.toNat) : c = d :=
  Char.ext (UInt32.ext h)

/-- The constant-time accumulator of `compare_digest` is zero exactly when
it started zero and every zipped character pair agrees. -/
lemma compare_digest_fold_eq_zero (l : List (Char × Char)) :
    ∀ acc : Nat,
      (l.foldl (fun a p => a ||| (p.1.toNat ^^^ p.2.toNat)) acc = 0) ↔
        (acc = 0 ∧ ∀ p ∈ l, p.1 = p.2) := by
  induction l with
  | nil => intro acc; simp
  | cons p ps ih =>
    intro acc
    rw [List.foldl_cons, ih]
    constructor
    · rintro ⟨h0, hall⟩
      obtain ⟨ha, hx⟩ := nat_lor_eq_zero.mp h0
      refine ⟨ha, ?_⟩
      intro q hq
      rcases List.mem_cons.mp hq with hq | hq
      · subst hq
        exact char_toNat_inj (Nat.xor_eq_zero.mp hx)
      · exact hall q hq
    · rintro ⟨h0, hall⟩
      have hp : p.1 = p.2 := hall p (List.mem_cons_self p ps)
      refine ⟨?_, fun q hq => hall q (List.mem_cons_of_mem p hq)⟩
      rw [h0, hp]
      simp

/-- Equal-length lists that agree on every zipped pair are equal. -/
lemma eq_of_zip_pointwise : ∀ (x y : List Char), x.length = y.length →
    (∀ p ∈ x.zip y, p.1 = p.2) → x = y := by
  intro x
  induction x with
  | nil =>
    intro y h _
    cases y with
    | nil => rfl
    | cons b bs => cases h
  | cons a as ih =>
    intro y h hall
    cases y with
    | nil => cases h
    | cons b bs =>
      have hab : a = b := hall (a, b) (by simp [List.zip_cons_cons])
      have htl : as = bs := by
        refine ih bs (by simpa using h) ?_
        intro p hp
        exact hall p (by simp [List.zip_cons_cons, hp])
      rw [hab, htl]

/-- Every zipped pair of a list with itself agrees. -/
lemma zip_self_pointwise : ∀ (x : List Char), ∀ p ∈ x.zip x, p.1 = p.2 := by
  intro x
  induction x with
  | nil => intro p hp; cases hp
  | cons a as ih =>
    intro p hp
    rcases List.mem_cons.mp (by simpa [List.zip_cons_cons] using hp) with h | h
    · subst h; rfl
    · exact ih p h

/-- `hmac.compare_digest` agrees with string equality. -/
lemma compare_digest_iff (a b : String) : compare_digest a b = true ↔ a = b := by
  unfold compare_digest
  rw [Bool.and_eq_true, beq_iff_eq, beq_iff_eq, compare_digest_fold_eq_zero]
  constructor
  · rintro ⟨hlen, -, hall⟩
    have hdata : a.data = b.data := eq_of_zip_pointwise a.data b.data hlen hall
    cases a
    cases b
    exact congrArg String.mk hdata
  · rintro rfl
    exact ⟨rfl, rfl, zip_self_pointwise a.data⟩

/-- C5 (spec-modelled `verify_webhook_signature`): a signature presented for
`"{timestamp}.{payload}"` verifies as valid exactly when its hex digest
matches the recomputed HMAC-SHA256 of the signed payload under the webhook
secret and the timestamp lies within the tolerance window around `now`. -/
theorem verify_webhook_signature_iff (payload secret sig_v1 : String)
    (sig_t now : Int) (tol : Nat) :
    verify_webhook_signature payload sig_t sig_v1 secret tol now = true ↔
      (sig_v1 = webhook_hex_signature secret sig_t payload ∧
        (now - sig_t).natAbs ≤ tol) := by
  unfold verify_webhook_signature
  rw [Bool.and_eq_true, compare_digest_iff, decide_eq_true_iff]

end DripHealth
